import Mathlib

/-!
Verification development for the transaction submission and confirmation
protocol of a Solana JSON-RPC client (`solana/rpc/api.py`).

The embedding translates `Client.confirm_transaction`, `Client.send_transaction`,
`Client.send_raw_transaction` and `Client.get_fee_for_message` into pure Lean
functions.  Network interaction is modelled by explicit traces: the responses the
transport would return to each successive request made by the code.  Python
control flow (while/else, exceptions, truthiness) is translated literally; in
particular the `while ... else` clause of `confirm_transaction` runs exactly when
the loop condition fails (including after zero iterations, where the local
variable `resp` is still unbound).
-/

/-- Modelled from the spec: `COMMITMENT_RANKS` lives in `solana/rpc/commitment.py`,
which is not among the sources here.  Per the spec, `Commitment` is one of
Processed, Confirmed, Finalized with the total order Processed < Confirmed <
Finalized, each carrying an integer rank used for comparisons. -/
inductive Commitment
  | processed
  | confirmed
  | finalized
deriving DecidableEq, Repr

/-- Modelled from the spec: integer ranks monotone with the declared order. -/
def COMMITMENT_RANKS : Commitment → Nat
  | .processed => 0
  | .confirmed => 1
  | .finalized => 2

/-- A request-level JSON-RPC error object. -/
structure RpcError where
  code : Int
  message : String
deriving DecidableEq, Repr

/-- The part of a `get_signature_statuses` response that `confirm_transaction`
reads: the optional request-level `error` object, and `result.value[0]` (the
status-or-null for the queried signature, of which only `confirmationStatus` is
consulted).  When `error` is present the code raises before touching `result`. -/
structure StatusResp where
  error : Option RpcError
  value0 : Option Commitment
deriving DecidableEq, Repr

/-- Terminal outcome of one `confirm_transaction` call.  The constructors mirror
the distinct exit points of the Python code:
`confirmed` = the `break`/`return resp` path;
`rpcError` = `raise RPCException` inside the polling loop;
`rpcErrorAtExhaustion` = `raise RPCException` in the `while ... else` clause;
`expired` = `raise TransactionExpiredBlockheightExceededError`;
`unconfirmed` = `raise UnconfirmedTxError`;
`unboundLocal` = the Python `UnboundLocalError` that occurs when the `else`
clause reads `resp` although the loop body never ran;
`outOfTrace` = the modelled response trace is too short to decide the call. -/
inductive ConfirmOutcome
  | confirmed (resp : StatusResp)
  | rpcError (e : RpcError)
  | rpcErrorAtExhaustion (e : RpcError)
  | expired
  | unconfirmed
  | unboundLocal
  | outOfTrace
deriving DecidableEq, Repr

/-- One iteration's worth of transport responses in height-bounded mode: the
`get_signature_statuses` response, and the `result` of the `get_block_height`
re-query performed at the end of the iteration. -/
structure HeightStep where
  resp : StatusResp
  nextHeight : Nat
deriving DecidableEq, Repr

/-- One iteration's worth of transport responses in wall-clock mode: the
`get_signature_statuses` response, and the reading `time()` returns at the next
loop test (after the iteration's work and `sleep`). -/
structure WallStep where
  resp : StatusResp
  nextTime : Nat
deriving DecidableEq, Repr

/-- The transport-side trace consumed by one `confirm_transaction` call:
`initialHeight` is the `result` of the `get_block_height` query made before the
height-bounded loop, `startTime` the `time()` reading used to set
`timeout = time() + 30`. -/
structure ConfirmWorld where
  initialHeight : Nat
  heightSteps : List HeightStep
  startTime : Nat
  wallSteps : List WallStep
deriving DecidableEq, Repr

/-- Python truthiness of an `Optional[int]`: `None` and `0` are falsy, any other
int is truthy.  This is the test `if last_valid_block_height:` performs. -/
def isTruthy : Option Nat → Bool
  | none => false
  | some n => n != 0

/-- The height-bounded polling loop of `confirm_transaction`
(`while current_blockheight <= last_valid_block_height: ... else: ...`).
`last` is the current value of the Python local `resp` (`none` = still unbound).
On each iteration: poll statuses, raise on a request-level error, `break` when
the observed rank reaches the target, otherwise re-query the block height and
continue.  The `else` clause (loop condition false) re-checks `resp` for an
error and otherwise raises the blockheight-exceeded error; reading `resp` after
zero iterations is an `UnboundLocalError`. -/
def heightLoop (lastValid targetRank : Nat) (h : Nat) (steps : List HeightStep)
    (last : Option StatusResp) : ConfirmOutcome :=
  if h ≤ lastValid then
    match steps with
    | [] => .outOfTrace
    | s :: rest =>
      match s.resp.error with
      | some e => .rpcError e
      | none =>
        match s.resp.value0 with
        | some st =>
          if COMMITMENT_RANKS st ≥ targetRank then .confirmed s.resp
          else heightLoop lastValid targetRank s.nextHeight rest (some s.resp)
        | none => heightLoop lastValid targetRank s.nextHeight rest (some s.resp)
  else
    match last with
    | none => .unboundLocal
    | some r =>
      match r.error with
      | some e => .rpcErrorAtExhaustion e
      | none => .expired

/-- The wall-clock polling loop of `confirm_transaction`
(`while time() < timeout: ... else: ...`).  `t` is the reading `time()` returns
at the current loop test, `last` the current value of the Python local `resp`.
Iterations poll, raise on a request-level error, `break` on sufficient rank,
else sleep and retry; the `else` clause re-checks `resp` for an error and
otherwise raises the unconfirmed-transaction error. -/
def wallLoop (timeout targetRank : Nat) (t : Nat) (steps : List WallStep)
    (last : Option StatusResp) : ConfirmOutcome :=
  if t < timeout then
    match steps with
    | [] => .outOfTrace
    | s :: rest =>
      match s.resp.error with
      | some e => .rpcError e
      | none =>
        match s.resp.value0 with
        | some st =>
          if COMMITMENT_RANKS st ≥ targetRank then .confirmed s.resp
          else wallLoop timeout targetRank s.nextTime rest (some s.resp)
        | none => wallLoop timeout targetRank s.nextTime rest (some s.resp)
  else
    match last with
    | none => .unboundLocal
    | some r =>
      match r.error with
      | some e => .rpcErrorAtExhaustion e
      | none => .unconfirmed

/-- `Client.confirm_transaction` (api.py).  Sets `timeout = time() + 30`,
resolves the commitment (`self._commitment if commitment is None else
commitment`) and its rank, then selects the mode with the Python truthiness
test `if last_valid_block_height:`: truthy selects the height-bounded loop
(after one initial `get_block_height` query), otherwise the wall-clock loop
runs.  Only dictionary lookups separate the `timeout` assignment from the first
wall-clock loop test, so that test uses the same clock reading `startTime`. -/
def confirm_transaction (defaultCommitment : Commitment)
    (commitment : Option Commitment) (lastValidBlockHeight : Option Nat)
    (w : ConfirmWorld) : ConfirmOutcome :=
  let timeout := w.startTime + 30
  let commitmentToUse := commitment.getD defaultCommitment
  let commitmentRank := COMMITMENT_RANKS commitmentToUse
  if isTruthy lastValidBlockHeight then
    heightLoop (lastValidBlockHeight.getD 0) commitmentRank w.initialHeight
      w.heightSteps none
  else
    wallLoop timeout commitmentRank w.startTime w.wallSteps none

/-- A blockhash is an opaque equality-comparable token. -/
abbrev Blockhash := String

/-- The part of a `get_latest_blockhash` response the submitter reads: the
blockhash itself and the accompanying `lastValidBlockHeight`. -/
structure BlockhashResp where
  blockhash : Blockhash
  lastValidBlockHeight : Nat
deriving DecidableEq, Repr

/-- Modelled from the spec: `TxOpts` lives in `solana/rpc/types.py`, which is
not among the sources here.  Per the spec, `SubmissionOptions` carries
`skipPreflight`, `skipConfirmation`, `preflightCommitment` and an optional
`lastValidBlockHeight`; api.py constructs defaults naming only some fields, so
the remaining fields default to false resp. absent. -/
structure TxOpts where
  skipPreflight : Bool := false
  skipConfirmation : Bool := false
  preflightCommitment : Commitment
  lastValidBlockHeight : Option Nat := none
deriving DecidableEq, Repr

/-- An observable mutation of the blockhash cache: `set blockhash used`. -/
inductive CacheOp
  | set (blockhash : Blockhash) (used : Bool)
deriving DecidableEq, Repr

/-- Modelled from the spec: `_process_blockhash_resp` lives in
`solana/rpc/core.py`, which is not among the sources here.  Per the spec, the
post-dispatch call (`used_immediately=False`) inserts the freshly fetched
blockhash into the cache as `used = false` (section 4.3 step 5), while the
miss-fallback call (`used_immediately=True`) records no cache insertion at that
point (section 9); both parse and return the blockhash.  The returned list is
the cache mutations the call performs. -/
def _process_blockhash_resp (cacheEnabled : Bool) (resp : BlockhashResp)
    (usedImmediately : Bool) : Blockhash × List CacheOp :=
  (resp.blockhash,
    if cacheEnabled && !usedImmediately then [CacheOp.set resp.blockhash false]
    else [])

/-- The part of a `send_raw_transaction` dispatch response the code reads: the
optional request-level error and the `result` (the transaction signature). -/
structure RawSendResp where
  error : Option RpcError
  result : String
deriving DecidableEq, Repr

/-- An exception escaping `send_raw_transaction` / `send_transaction`,
mirroring the Python exception classes raised by the submission path. -/
inductive SendError
  | rpcException (e : RpcError)
  | expired
  | unconfirmed
  | unboundLocal
  | outOfTrace
deriving DecidableEq, Repr

/-- How a `confirm_transaction` outcome propagates to the caller of
`__post_send_with_confirm`: a confirmed response returns normally, every other
outcome is an exception (both RPCException raise sites map to the same Python
exception class). -/
def confirmToExcept : ConfirmOutcome → Except SendError StatusResp
  | .confirmed r => .ok r
  | .rpcError e => .error (.rpcException e)
  | .rpcErrorAtExhaustion e => .error (.rpcException e)
  | .expired => .error .expired
  | .unconfirmed => .error .unconfirmed
  | .unboundLocal => .error .unboundLocal
  | .outOfTrace => .error .outOfTrace

/-- Modelled from the spec: `_post_send` lives in `solana/rpc/core.py`, which is
not among the sources here.  Per the spec, a response carrying a request-level
error object is authoritative and is propagated unchanged (raised as
RPCException); otherwise the response is returned. -/
def _post_send (resp : RawSendResp) : Except SendError RawSendResp :=
  match resp.error with
  | some e => .error (.rpcException e)
  | none => .ok resp

/-- `Client.__post_send_with_confirm` (api.py): run `_post_send`, then confirm
the returned signature with target commitment `conf_comm` and the given
`last_valid_block_height`, returning the dispatch response when confirmation
returns normally. -/
def _post_send_with_confirm (defaultCommitment : Commitment)
    (resp : RawSendResp) (confComm : Commitment) (lastValid : Option Nat)
    (cw : ConfirmWorld) : Except SendError RawSendResp :=
  match _post_send resp with
  | .error e => .error e
  | .ok r =>
    match confirmToExcept
        (confirm_transaction defaultCommitment (some confComm) lastValid cw) with
    | .error e => .error e
    | .ok _ => .ok r

/-- `Client.send_raw_transaction` (api.py): default `opts` to
`TxOpts(preflight_commitment=self._commitment)` when absent, dispatch
(`dispatchResp` is the transport's response), then either return after
`_post_send` (when `skip_confirmation`) or hand off to confirmation with
`conf_comm = opts.preflight_commitment` and the opts' `last_valid_block_height`
(the arguments `_send_raw_transaction_post_send_args` extracts). -/
def send_raw_transaction (defaultCommitment : Commitment) (opts : Option TxOpts)
    (dispatchResp : RawSendResp) (cw : ConfirmWorld) :
    Except SendError RawSendResp :=
  let optsToUse := opts.getD { preflightCommitment := defaultCommitment }
  if optsToUse.skipConfirmation then _post_send dispatchResp
  else
    _post_send_with_confirm defaultCommitment dispatchResp
      optsToUse.preflightCommitment optsToUse.lastValidBlockHeight cw

/-- The transport-side trace consumed by one `send_transaction` call.
`cacheGet` is the outcome of `self.blockhash_cache.get()` (`none` = the
`ValueError` cache miss); `missFetch` answers the `get_latest_blockhash`
fallback (also used for the always-fetch path when the cache is disabled);
`dispatchResp` answers the dispatch; `confirmWorld` drives the confirmation
call; `postFetch` answers the post-dispatch `get_latest_blockhash`. -/
structure SendWorld where
  cacheEnabled : Bool
  cacheGet : Option Blockhash
  missFetch : BlockhashResp
  dispatchResp : RawSendResp
  confirmWorld : ConfirmWorld
  postFetch : BlockhashResp
deriving DecidableEq, Repr

/-- Result of one `send_transaction` call: the returned response or escaping
exception, the cache mutations performed before dispatch and after dispatch,
and the `opts_to_use` value handed to `send_raw_transaction`. -/
structure SendResult where
  result : Except SendError RawSendResp
  preDispatchCacheOps : List CacheOp
  postDispatchCacheOps : List CacheOp
  dispatchedOpts : TxOpts
deriving Repr

/-- All cache mutations of the call, in order. -/
def SendResult.cacheOps (r : SendResult) : List CacheOp :=
  r.preDispatchCacheOps ++ r.postDispatchCacheOps

/-- Step 1 of `Client.send_transaction` (api.py): choose the blockhash to
embed and capture `last_valid_block_height`.  A caller-supplied blockhash is
used verbatim (no height recorded); otherwise with the cache enabled
`cache.get()` is tried and on `ValueError` the code fetches the latest
blockhash, runs `_process_blockhash_resp(..., used_immediately=True)` and
records the accompanying `lastValidBlockHeight`; with the cache disabled it
always fetches (`parse_recent_blockhash`) and records.  Returns the chosen
blockhash, the captured height, and the cache mutations performed. -/
def chooseBlockhash (w : SendWorld) (recentBlockhash : Option Blockhash) :
    Blockhash × Option Nat × List CacheOp :=
  match recentBlockhash with
  | some bh => (bh, none, [])
  | none =>
    if w.cacheEnabled then
      match w.cacheGet with
      | some bh => (bh, none, [])
      | none =>
        let fetched := _process_blockhash_resp w.cacheEnabled w.missFetch true
        (fetched.1, some w.missFetch.lastValidBlockHeight, fetched.2)
    else
      (w.missFetch.blockhash, some w.missFetch.lastValidBlockHeight, [])

/-- Tail of `Client.send_transaction` (api.py), after `opts_to_use` is fixed
and the dispatch call `txn_resp = self.send_raw_transaction(...)` has produced
`raw` (its return value or escaping exception): only when the call returned
without raising does control reach the `if self.blockhash_cache:` block, which
fetches a fresh blockhash and runs
`_process_blockhash_resp(..., used_immediately=False)`; an exception propagates
past that block, skipping it. -/
def finishSend (w : SendWorld) (preOps : List CacheOp) (optsToUse : TxOpts)
    (raw : Except SendError RawSendResp) : SendResult :=
  match raw with
  | .error e =>
    { result := .error e, preDispatchCacheOps := preOps
      postDispatchCacheOps := [], dispatchedOpts := optsToUse }
  | .ok r =>
    let postOps :=
      if w.cacheEnabled then
        (_process_blockhash_resp w.cacheEnabled w.postFetch false).2
      else []
    { result := .ok r, preDispatchCacheOps := preOps
      postDispatchCacheOps := postOps, dispatchedOpts := optsToUse }

/-- The post-dispatch cache mutations of `send_transaction` as a function of
the dispatch-and-confirmation call's outcome `raw`: nothing when it raised,
otherwise the mutations of the post-dispatch `_process_blockhash_resp` call
(guarded by `if self.blockhash_cache:`). -/
def postOpsOf (w : SendWorld) (raw : Except SendError RawSendResp) :
    List CacheOp :=
  match raw with
  | .ok _ =>
    if w.cacheEnabled then
      (_process_blockhash_resp w.cacheEnabled w.postFetch false).2
    else []
  | .error _ => []

/-- `Client.send_transaction` (api.py).  Step 1 (`chooseBlockhash`) picks the
blockhash and captures `last_valid_block_height`; `opts_to_use` is the caller's
`opts` verbatim when supplied, else
`TxOpts(preflight_commitment=self._commitment,
last_valid_block_height=last_valid_block_height)`; the signed transaction is
dispatched via `send_raw_transaction` with those opts; `finishSend` performs
the post-dispatch cache refresh only when that call did not raise. -/
def send_transaction (defaultCommitment : Commitment) (opts : Option TxOpts)
    (recentBlockhash : Option Blockhash) (w : SendWorld) : SendResult :=
  let step1 := chooseBlockhash w recentBlockhash
  let lastValidBlockHeight := step1.2.1
  let preOps := step1.2.2
  let optsToUse := opts.getD
    { preflightCommitment := defaultCommitment
      lastValidBlockHeight := lastValidBlockHeight }
  finishSend w preOps optsToUse
    (send_raw_transaction defaultCommitment (some optsToUse) w.dispatchResp
      w.confirmWorld)

/-- Argument to `get_fee_for_message`: either an uncompiled `Transaction` object
or a compiled `Message` (payloads are opaque). -/
inductive MessageArg
  | transaction (txn : Nat)
  | message (msg : Nat)
deriving DecidableEq, Repr

/-- Exception raised by `get_fee_for_message`. -/
inductive FeeError
  | uncompiled
deriving DecidableEq, Repr

/-- `Client.get_fee_for_message` (api.py): if the argument is a `Transaction`
instance, raise `TransactionUncompiledError` before building any request body;
otherwise build the body and make exactly one transport request, returning the
provider's response.  The second component counts `make_request` calls. -/
def get_fee_for_message (message : MessageArg) (providerResp : StatusResp) :
    Except FeeError StatusResp × Nat :=
  match message with
  | .transaction _ => (.error .uncompiled, 0)
  | .message _ => (.ok providerResp, 1)

/-! ## Helper lemmas -/

/-- The pre-dispatch cache mutations recorded by `finishSend` are exactly the
ones passed in. -/
theorem finishSend_preOps (w : SendWorld) (preOps : List CacheOp)
    (optsToUse : TxOpts) (raw : Except SendError RawSendResp) :
    (finishSend w preOps optsToUse raw).preDispatchCacheOps = preOps := by
  cases raw <;> rfl

/-- The `opts_to_use` recorded by `finishSend` is exactly the one passed in. -/
theorem finishSend_dispatchedOpts (w : SendWorld) (preOps : List CacheOp)
    (optsToUse : TxOpts) (raw : Except SendError RawSendResp) :
    (finishSend w preOps optsToUse raw).dispatchedOpts = optsToUse := by
  cases raw <;> rfl

/-- `send_transaction` returns the dispatch call's value or re-raises its
exception unchanged. -/
theorem finishSend_result (w : SendWorld) (preOps : List CacheOp)
    (optsToUse : TxOpts) (raw : Except SendError RawSendResp) :
    (finishSend w preOps optsToUse raw).result = raw := by
  cases raw <;> rfl

/-- The post-dispatch cache mutations of `finishSend`: nothing when the
dispatch-and-confirmation call raised, otherwise the mutations of the
post-dispatch `_process_blockhash_resp` call (guarded by the cache flag). -/
theorem finishSend_postOps (w : SendWorld) (preOps : List CacheOp)
    (optsToUse : TxOpts) (raw : Except SendError RawSendResp) :
    (finishSend w preOps optsToUse raw).postDispatchCacheOps = postOpsOf w raw := by
  cases raw <;> rfl

/-- Every branch of blockhash selection in `send_transaction` performs no cache
insertion: the caller-supplied and cache-hit branches touch nothing, the
cache-miss fallback calls `_process_blockhash_resp` with
`used_immediately=True` (which records no insertion), and the cache-disabled
branch only parses the fetched response. -/
theorem chooseBlockhash_no_ops (w : SendWorld) (rb : Option Blockhash) :
    (chooseBlockhash w rb).2.2 = [] := by
  cases rb with
  | some bh => rfl
  | none =>
    by_cases hc : w.cacheEnabled
    · cases hg : w.cacheGet with
      | some bh => simp [chooseBlockhash, hc, hg]
      | none => simp [chooseBlockhash, hc, hg, _process_blockhash_resp]
    · simp [chooseBlockhash, hc]

/-- Invariant of the wall-clock loop: starting from a state where an unbound
`resp` implies the loop test will pass, and where any bound `resp` has already
been error-checked inside the loop, the `while ... else` clause never reads an
unbound `resp` and its error re-check never fires. -/
theorem wallLoop_exhaustion_invariant (timeout targetRank : Nat)
    (steps : List WallStep) :
    ∀ (t : Nat) (last : Option StatusResp),
      (last = none → t < timeout) →
      (∀ r, last = some r → r.error = none) →
      wallLoop timeout targetRank t steps last ≠ ConfirmOutcome.unboundLocal ∧
      ∀ e, wallLoop timeout targetRank t steps last
        ≠ ConfirmOutcome.rpcErrorAtExhaustion e := by
  induction steps with
  | nil =>
    intro t last h1 h2
    by_cases hc : t < timeout
    · simp [wallLoop, hc]
    · match last, h1, h2 with
      | none, h1, _ => exact absurd (h1 rfl) hc
      | some r, _, h2 =>
        have hr := h2 r rfl
        simp [wallLoop, hc, hr]
  | cons s rest ih =>
    intro t last h1 h2
    by_cases hc : t < timeout
    · cases he : s.resp.error with
      | some e => simp [wallLoop, hc, he]
      | none =>
        cases hv : s.resp.value0 with
        | some st =>
          by_cases hrank : COMMITMENT_RANKS st ≥ targetRank
          · simp [wallLoop, hc, he, hv, hrank]
          · simpa [wallLoop, hc, he, hv, hrank] using
              ih s.nextTime (some s.resp) (by simp) (fun r hr => by cases hr; exact he)
        | none =>
          simpa [wallLoop, hc, he, hv] using
            ih s.nextTime (some s.resp) (by simp) (fun r hr => by cases hr; exact he)
    · match last, h1, h2 with
      | none, h1, _ => exact absurd (h1 rfl) hc
      | some r, _, h2 =>
        have hr := h2 r rfl
        simp [wallLoop, hc, hr]

/-! ## Claims -/

/-- C1 (code bug): the height-bounded mode is supposed to raise the
blockheight-exceeded error whenever the observed height passes
`lastValidBlockHeight` before any status reaches the target, including with
zero polling iterations.  At the failing input — `lastValidBlockHeight = 5`
with the very first `get_block_height` query returning 6 — the loop body never
runs and the `while ... else` clause reads the still-unbound local `resp`, so
the call dies with a Python `UnboundLocalError` instead of
`TransactionExpiredBlockheightExceededError`.  The second conjunct shows the
intended behavior does occur after one fruitless iteration (height 4, a null
status, re-queried height 6). -/
theorem confirm_height_zero_iteration_unbound_resp :
    confirm_transaction Commitment.finalized none (some 5)
        { initialHeight := 6, heightSteps := [], startTime := 0, wallSteps := [] }
      = ConfirmOutcome.unboundLocal ∧
    heightLoop 5 2 4 [{ resp := { error := none, value0 := none }, nextHeight := 6 }] none
      = ConfirmOutcome.expired :=
  ⟨rfl, rfl⟩

/-- C2 counterexample: `last_valid_block_height = 0` is supplied (it is not
`None`), yet the call runs the wall-clock loop: the height trace is empty (so
the height-bounded loop could only produce `outOfTrace` or `unboundLocal`,
never a confirmation), but the call consumes the wall-clock trace and
confirms.  Mode selection is Python truthiness, not an `is not None` test. -/
theorem confirm_mode_zero_height_counterexample :
    (some 0 : Option Nat) ≠ none ∧
    confirm_transaction Commitment.finalized none (some 0)
        { initialHeight := 0, heightSteps := [], startTime := 0,
          wallSteps := [{ resp := { error := none, value0 := some Commitment.finalized },
                          nextTime := 1 }] }
      = ConfirmOutcome.confirmed { error := none, value0 := some Commitment.finalized } :=
  ⟨by decide, rfl⟩

/-- C2 (amended): the two polling modes are selected by Python truthiness of
`last_valid_block_height`: the height-bounded loop runs exactly when the value
is supplied and nonzero, and the wall-clock loop runs when it is `None` or
`0`; the two modes remain mutually exclusive (the two conditions partition all
inputs). -/
theorem confirm_mode_selection_truthiness (default : Commitment)
    (c : Option Commitment) (lv : Option Nat) (w : ConfirmWorld) :
    ((∃ n, lv = some n ∧ n ≠ 0) →
      confirm_transaction default c lv w
        = heightLoop (lv.getD 0) (COMMITMENT_RANKS (c.getD default))
            w.initialHeight w.heightSteps none) ∧
    ((lv = none ∨ lv = some 0) →
      confirm_transaction default c lv w
        = wallLoop (w.startTime + 30) (COMMITMENT_RANKS (c.getD default))
            w.startTime w.wallSteps none) := by
  constructor
  · rintro ⟨n, rfl, hn⟩
    simp [confirm_transaction, isTruthy, hn]
  · rintro (rfl | rfl) <;> simp [confirm_transaction, isTruthy]

/-- C2 witness: the amended mode-selection theorem at concrete inputs
(`some 5` selects the height-bounded loop, `none` the wall-clock loop). -/
theorem confirm_mode_selection_truthiness_witness :
    (confirm_transaction Commitment.finalized none (some 5)
        { initialHeight := 6, heightSteps := [], startTime := 0, wallSteps := [] }
      = heightLoop 5 2 6 [] none) ∧
    (confirm_transaction Commitment.finalized none none
        { initialHeight := 6, heightSteps := [], startTime := 0, wallSteps := [] }
      = wallLoop 30 2 0 [] none) :=
  ⟨(confirm_mode_selection_truthiness Commitment.finalized none (some 5)
      { initialHeight := 6, heightSteps := [], startTime := 0, wallSteps := [] }).1
      ⟨5, rfl, by decide⟩,
   (confirm_mode_selection_truthiness Commitment.finalized none none
      { initialHeight := 6, heightSteps := [], startTime := 0, wallSteps := [] }).2
      (Or.inl rfl)⟩

/-- C5: in both modes, a polled iteration whose signature-status response
carries a request-level error object raises exactly that error immediately:
the outcome is `rpcError e`, and the remainder of the polling trace is never
consulted (the result is unchanged under any replacement of the later
steps), so no further polling iteration occurs. -/
theorem confirm_poll_error_raised_immediately
    (lastValid targetRank h nh t nt timeout : Nat) (e : RpcError)
    (v : Option Commitment) (rest rest2 : List HeightStep)
    (wrest wrest2 : List WallStep) (last : Option StatusResp)
    (hh : h ≤ lastValid) (ht : t < timeout) :
    heightLoop lastValid targetRank h
        ({ resp := { error := some e, value0 := v }, nextHeight := nh } :: rest) last
      = ConfirmOutcome.rpcError e ∧
    heightLoop lastValid targetRank h
        ({ resp := { error := some e, value0 := v }, nextHeight := nh } :: rest) last
      = heightLoop lastValid targetRank h
          ({ resp := { error := some e, value0 := v }, nextHeight := nh } :: rest2) last ∧
    wallLoop timeout targetRank t
        ({ resp := { error := some e, value0 := v }, nextTime := nt } :: wrest) last
      = ConfirmOutcome.rpcError e ∧
    wallLoop timeout targetRank t
        ({ resp := { error := some e, value0 := v }, nextTime := nt } :: wrest) last
      = wallLoop timeout targetRank t
          ({ resp := { error := some e, value0 := v }, nextTime := nt } :: wrest2) last := by
  refine ⟨?_, ?_, ?_, ?_⟩ <;> simp [heightLoop, wallLoop, hh, ht]

/-- C5 witness: the immediate-error theorem at a concrete input. -/
theorem confirm_poll_error_raised_immediately_witness :
    heightLoop 10 2 3
        ({ resp := { error := some { code := 7, message := "bad" }, value0 := none },
           nextHeight := 4 } :: []) none
      = ConfirmOutcome.rpcError { code := 7, message := "bad" } ∧
    heightLoop 10 2 3
        ({ resp := { error := some { code := 7, message := "bad" }, value0 := none },
           nextHeight := 4 } :: []) none
      = heightLoop 10 2 3
          ({ resp := { error := some { code := 7, message := "bad" }, value0 := none },
             nextHeight := 4 } :: []) none ∧
    wallLoop 30 2 0
        ({ resp := { error := some { code := 7, message := "bad" }, value0 := none },
           nextTime := 1 } :: []) none
      = ConfirmOutcome.rpcError { code := 7, message := "bad" } ∧
    wallLoop 30 2 0
        ({ resp := { error := some { code := 7, message := "bad" }, value0 := none },
           nextTime := 1 } :: []) none
      = wallLoop 30 2 0
          ({ resp := { error := some { code := 7, message := "bad" }, value0 := none },
             nextTime := 1 } :: []) none :=
  confirm_poll_error_raised_immediately 10 2 3 4 0 1 30
    { code := 7, message := "bad" } none [] [] [] [] none (by decide) (by decide)

/-- C7: in both modes a polled status is accepted exactly when its commitment
rank is at least the target rank (`>=`, not `>`): at such a poll the loop
terminates confirmed with that response, and otherwise it proceeds to the next
iteration; in particular an observed commitment whose rank equals the target
rank is accepted (last two conjuncts, where the target rank is the observed
status's own rank). -/
theorem confirm_rank_threshold_reflexive
    (lastValid targetRank h nh t nt timeout : Nat) (st : Commitment)
    (rest : List HeightStep) (wrest : List WallStep) (last : Option StatusResp)
    (hh : h ≤ lastValid) (ht : t < timeout) :
    heightLoop lastValid targetRank h
        ({ resp := { error := none, value0 := some st }, nextHeight := nh } :: rest) last
      = (if COMMITMENT_RANKS st ≥ targetRank
         then ConfirmOutcome.confirmed { error := none, value0 := some st }
         else heightLoop lastValid targetRank nh rest
                (some { error := none, value0 := some st })) ∧
    wallLoop timeout targetRank t
        ({ resp := { error := none, value0 := some st }, nextTime := nt } :: wrest) last
      = (if COMMITMENT_RANKS st ≥ targetRank
         then ConfirmOutcome.confirmed { error := none, value0 := some st }
         else wallLoop timeout targetRank nt wrest
                (some { error := none, value0 := some st })) ∧
    heightLoop lastValid (COMMITMENT_RANKS st) h
        ({ resp := { error := none, value0 := some st }, nextHeight := nh } :: rest) last
      = ConfirmOutcome.confirmed { error := none, value0 := some st } ∧
    wallLoop timeout (COMMITMENT_RANKS st) t
        ({ resp := { error := none, value0 := some st }, nextTime := nt } :: wrest) last
      = ConfirmOutcome.confirmed { error := none, value0 := some st } := by
  refine ⟨?_, ?_, ?_, ?_⟩ <;> simp [heightLoop, wallLoop, hh, ht]

/-- C7 witness: the rank-threshold theorem at a concrete input (target
`confirmed`, observed `confirmed`: the tie is accepted). -/
theorem confirm_rank_threshold_reflexive_witness :
    heightLoop 10 1 3
        ({ resp := { error := none, value0 := some Commitment.confirmed },
           nextHeight := 4 } :: []) none
      = (if COMMITMENT_RANKS Commitment.confirmed ≥ 1
         then ConfirmOutcome.confirmed { error := none, value0 := some Commitment.confirmed }
         else heightLoop 10 1 4 []
                (some { error := none, value0 := some Commitment.confirmed })) ∧
    wallLoop 30 1 0
        ({ resp := { error := none, value0 := some Commitment.confirmed },
           nextTime := 1 } :: []) none
      = (if COMMITMENT_RANKS Commitment.confirmed ≥ 1
         then ConfirmOutcome.confirmed { error := none, value0 := some Commitment.confirmed }
         else wallLoop 30 1 1 []
                (some { error := none, value0 := some Commitment.confirmed })) ∧
    heightLoop 10 (COMMITMENT_RANKS Commitment.confirmed) 3
        ({ resp := { error := none, value0 := some Commitment.confirmed },
           nextHeight := 4 } :: []) none
      = ConfirmOutcome.confirmed { error := none, value0 := some Commitment.confirmed } ∧
    wallLoop 30 (COMMITMENT_RANKS Commitment.confirmed) 0
        ({ resp := { error := none, value0 := some Commitment.confirmed },
           nextTime := 1 } :: []) none
      = ConfirmOutcome.confirmed { error := none, value0 := some Commitment.confirmed } :=
  confirm_rank_threshold_reflexive 10 1 3 4 0 1 30 Commitment.confirmed [] [] none
    (by decide) (by decide)

/-- C8: calling `get_fee_for_message` with an uncompiled `Transaction` object
raises `TransactionUncompiledError` synchronously: for every transaction
payload and every conceivable provider response, the call returns the
uncompiled error and the number of transport requests made is zero. -/
theorem get_fee_uncompiled_rejected_synchronously (txn : Nat)
    (providerResp : StatusResp) :
    get_fee_for_message (MessageArg.transaction txn) providerResp
      = (Except.error FeeError.uncompiled, 0) :=
  rfl

/-- C6: the wall-clock mode's loop ceiling is the fixed value
`startTime + 30` (first conjunct: with no height ceiling the call runs the
wall-clock loop against exactly that timeout); once a loop-test clock reading
is at or past the ceiling the loop continues no further — the result is
independent of any remaining polling steps (second conjunct) — and the
exhaustion path surfaces a pending request-level error on the last response if
one is present and otherwise raises the unconfirmed-transaction timeout error
(third conjunct). -/
theorem confirm_wall_ceiling_behavior (default : Commitment)
    (c : Option Commitment) (w : ConfirmWorld) (timeout targetRank t : Nat)
    (steps steps2 : List WallStep) (r : StatusResp) (hceil : ¬ t < timeout) :
    confirm_transaction default c none w
      = wallLoop (w.startTime + 30) (COMMITMENT_RANKS (c.getD default))
          w.startTime w.wallSteps none ∧
    (∀ last, wallLoop timeout targetRank t steps last
        = wallLoop timeout targetRank t steps2 last) ∧
    wallLoop timeout targetRank t steps (some r)
      = (match r.error with
         | some e => ConfirmOutcome.rpcErrorAtExhaustion e
         | none => ConfirmOutcome.unconfirmed) := by
  refine ⟨rfl, ?_, ?_⟩
  · intro last
    cases steps <;> cases steps2 <;> simp [wallLoop, hceil]
  · cases steps <;> cases hre : r.error <;> simp [wallLoop, hceil, hre]

/-- C6 witness: the wall-clock ceiling theorem at a concrete input
(clock reading 30 against timeout 30: the loop stops, later steps are ignored,
and with an error-free last response the timeout error is raised). -/
theorem confirm_wall_ceiling_behavior_witness :
    (confirm_transaction Commitment.finalized none none
        { initialHeight := 0, heightSteps := [], startTime := 0, wallSteps := [] }
      = wallLoop 30 2 0 [] none) ∧
    (∀ last, wallLoop 30 2 30 [] last
        = wallLoop 30 2 30
            [{ resp := { error := none, value0 := none }, nextTime := 31 }] last) ∧
    wallLoop 30 2 30 [] (some { error := none, value0 := none })
      = ConfirmOutcome.unconfirmed :=
  confirm_wall_ceiling_behavior Commitment.finalized none
    { initialHeight := 0, heightSteps := [], startTime := 0, wallSteps := [] }
    30 2 30 [] [{ resp := { error := none, value0 := none }, nextTime := 31 }]
    { error := none, value0 := none } (by decide)

/-- C10: in wall-clock mode the deadline is strictly in the future at the
first loop test (`startTime < startTime + 30`), so at least one polling
iteration always runs: with an empty polling trace the call demands a first
poll (first conjunct) and the unbound-`resp` failure of the zero-iteration
exhaustion path is impossible (second conjunct); moreover every response is
error-checked inside the loop before the loop condition can next fail, so the
error re-check in the exhaustion path never fires — on timeout the raised
error is always the unconfirmed-transaction error, never an RPCException from
that re-check (third conjunct). -/
theorem confirm_wall_first_poll_and_no_exhaustion_error (default : Commitment)
    (c : Option Commitment) (w : ConfirmWorld) :
    (w.wallSteps = [] →
      confirm_transaction default c none w = ConfirmOutcome.outOfTrace) ∧
    confirm_transaction default c none w ≠ ConfirmOutcome.unboundLocal ∧
    ∀ e, confirm_transaction default c none w
      ≠ ConfirmOutcome.rpcErrorAtExhaustion e := by
  have hmode : confirm_transaction default c none w
      = wallLoop (w.startTime + 30) (COMMITMENT_RANKS (c.getD default))
          w.startTime w.wallSteps none := rfl
  have hinv := wallLoop_exhaustion_invariant (w.startTime + 30)
    (COMMITMENT_RANKS (c.getD default)) w.wallSteps w.startTime none
    (fun _ => by omega) (fun r hr => nomatch hr)
  refine ⟨?_, hinv.1, hinv.2⟩
  intro hsteps
  rw [hmode, hsteps, wallLoop, if_pos (by omega : w.startTime < w.startTime + 30)]

/-- C10 witness: the first-poll theorem at a concrete input with an empty
polling trace. -/
theorem confirm_wall_first_poll_and_no_exhaustion_error_witness :
    confirm_transaction Commitment.finalized none none
        { initialHeight := 0, heightSteps := [], startTime := 0, wallSteps := [] }
      = ConfirmOutcome.outOfTrace ∧
    confirm_transaction Commitment.finalized none none
        { initialHeight := 0, heightSteps := [], startTime := 0, wallSteps := [] }
      ≠ ConfirmOutcome.unboundLocal :=
  ⟨(confirm_wall_first_poll_and_no_exhaustion_error Commitment.finalized none
      { initialHeight := 0, heightSteps := [], startTime := 0, wallSteps := [] }).1 rfl,
   (confirm_wall_first_poll_and_no_exhaustion_error Commitment.finalized none
      { initialHeight := 0, heightSteps := [], startTime := 0, wallSteps := [] }).2.1⟩

/-- C3 counterexample: cache enabled, cache hit, successful dispatch, but the
confirmation poll carries a request-level error, so confirmation raises.  The
exception propagates out of `send_transaction` before the post-dispatch
`if self.blockhash_cache:` block, so no fresh blockhash is fetched and nothing
is inserted into the cache with `used = false` — contradicting the claim that
the insertion happens regardless of whether confirmation succeeds or fails. -/
theorem send_cache_insert_skipped_on_confirm_failure :
    (send_transaction Commitment.finalized none none
      { cacheEnabled := true,
        cacheGet := some "A",
        missFetch := { blockhash := "B", lastValidBlockHeight := 100 },
        dispatchResp := { error := none, result := "sig1" },
        confirmWorld := { initialHeight := 0, heightSteps := [], startTime := 0,
                          wallSteps := [{ resp := { error := some { code := 1, message := "boom" },
                                                    value0 := none },
                                          nextTime := 1 }] },
        postFetch := { blockhash := "C", lastValidBlockHeight := 200 } }).result
      = Except.error (SendError.rpcException { code := 1, message := "boom" }) ∧
    (send_transaction Commitment.finalized none none
      { cacheEnabled := true,
        cacheGet := some "A",
        missFetch := { blockhash := "B", lastValidBlockHeight := 100 },
        dispatchResp := { error := none, result := "sig1" },
        confirmWorld := { initialHeight := 0, heightSteps := [], startTime := 0,
                          wallSteps := [{ resp := { error := some { code := 1, message := "boom" },
                                                    value0 := none },
                                          nextTime := 1 }] },
        postFetch := { blockhash := "C", lastValidBlockHeight := 200 } }).cacheOps = [] :=
  ⟨rfl, rfl⟩

/-- C3 (amended): with the cache enabled, the post-dispatch fetch-and-insert of
a fresh blockhash with `used = false` happens exactly when the
dispatch-and-confirmation call returns without raising; when it raises, the
exception propagates and the insertion is skipped. -/
theorem send_postdispatch_insert_iff_no_exception (default : Commitment)
    (opts : Option TxOpts) (rb : Option Blockhash) (w : SendWorld)
    (hc : w.cacheEnabled = true) :
    (∀ r, (send_transaction default opts rb w).result = Except.ok r →
      (send_transaction default opts rb w).postDispatchCacheOps
        = [CacheOp.set w.postFetch.blockhash false]) ∧
    (∀ e, (send_transaction default opts rb w).result = Except.error e →
      (send_transaction default opts rb w).postDispatchCacheOps = []) := by
  have hpost : (send_transaction default opts rb w).postDispatchCacheOps
      = postOpsOf w ((send_transaction default opts rb w).result) := by
    show (finishSend w _ _ _).postDispatchCacheOps
        = postOpsOf w ((finishSend w _ _ _).result)
    rw [finishSend_postOps, finishSend_result]
  constructor
  · intro r hr
    rw [hpost, hr]
    simp [postOpsOf, _process_blockhash_resp, hc]
  · intro e he
    rw [hpost, he]
    simp [postOpsOf]

/-- C3 witness: the amended theorem at a concrete input (successful dispatch
and confirmation: exactly the fresh blockhash is inserted, `used = false`). -/
theorem send_postdispatch_insert_iff_no_exception_witness :
    (send_transaction Commitment.finalized none none
      { cacheEnabled := true,
        cacheGet := some "A",
        missFetch := { blockhash := "B", lastValidBlockHeight := 100 },
        dispatchResp := { error := none, result := "sig1" },
        confirmWorld := { initialHeight := 0, heightSteps := [], startTime := 0,
                          wallSteps := [{ resp := { error := none,
                                                    value0 := some Commitment.finalized },
                                          nextTime := 1 }] },
        postFetch := { blockhash := "C", lastValidBlockHeight := 200 } }).postDispatchCacheOps
      = [CacheOp.set "C" false] :=
  (send_postdispatch_insert_iff_no_exception Commitment.finalized none none
    { cacheEnabled := true,
      cacheGet := some "A",
      missFetch := { blockhash := "B", lastValidBlockHeight := 100 },
      dispatchResp := { error := none, result := "sig1" },
      confirmWorld := { initialHeight := 0, heightSteps := [], startTime := 0,
                        wallSteps := [{ resp := { error := none,
                                                  value0 := some Commitment.finalized },
                                        nextTime := 1 }] },
      postFetch := { blockhash := "C", lastValidBlockHeight := 200 } } rfl).1
    { error := none, result := "sig1" } rfl

/-- C4: when the cache is enabled and `cache.get()` misses, the freshly fetched
fallback blockhash is not inserted into the cache at that point (the
pre-dispatch cache mutations are empty), so every cache mutation of the call
is one of the post-dispatch mutations. -/
theorem send_miss_fallback_not_inserted (default : Commitment)
    (opts : Option TxOpts) (w : SendWorld)
    (_hc : w.cacheEnabled = true) (_hm : w.cacheGet = none) :
    (send_transaction default opts none w).preDispatchCacheOps = [] ∧
    (send_transaction default opts none w).cacheOps
      = (send_transaction default opts none w).postDispatchCacheOps := by
  have hpre : (send_transaction default opts none w).preDispatchCacheOps = [] := by
    show (finishSend w _ _ _).preDispatchCacheOps = []
    rw [finishSend_preOps, chooseBlockhash_no_ops]
  exact ⟨hpre, by rw [SendResult.cacheOps, hpre, List.nil_append]⟩

/-- C4 witness: the no-insert-on-miss theorem at a concrete input. -/
theorem send_miss_fallback_not_inserted_witness :
    (send_transaction Commitment.finalized none none
      { cacheEnabled := true,
        cacheGet := none,
        missFetch := { blockhash := "B", lastValidBlockHeight := 100 },
        dispatchResp := { error := none, result := "sig1" },
        confirmWorld := { initialHeight := 0,
                          heightSteps := [{ resp := { error := none,
                                                      value0 := some Commitment.finalized },
                                            nextHeight := 1 }],
                          startTime := 0, wallSteps := [] },
        postFetch := { blockhash := "C", lastValidBlockHeight := 200 } }).preDispatchCacheOps
      = [] ∧
    (send_transaction Commitment.finalized none none
      { cacheEnabled := true,
        cacheGet := none,
        missFetch := { blockhash := "B", lastValidBlockHeight := 100 },
        dispatchResp := { error := none, result := "sig1" },
        confirmWorld := { initialHeight := 0,
                          heightSteps := [{ resp := { error := none,
                                                      value0 := some Commitment.finalized },
                                            nextHeight := 1 }],
                          startTime := 0, wallSteps := [] },
        postFetch := { blockhash := "C", lastValidBlockHeight := 200 } }).cacheOps
      = (send_transaction Commitment.finalized none none
          { cacheEnabled := true,
            cacheGet := none,
            missFetch := { blockhash := "B", lastValidBlockHeight := 100 },
            dispatchResp := { error := none, result := "sig1" },
            confirmWorld := { initialHeight := 0,
                              heightSteps := [{ resp := { error := none,
                                                          value0 := some Commitment.finalized },
                                                nextHeight := 1 }],
                              startTime := 0, wallSteps := [] },
            postFetch := { blockhash := "C", lastValidBlockHeight := 200 } }).postDispatchCacheOps :=
  send_miss_fallback_not_inserted Commitment.finalized none
    { cacheEnabled := true,
      cacheGet := none,
      missFetch := { blockhash := "B", lastValidBlockHeight := 100 },
      dispatchResp := { error := none, result := "sig1" },
      confirmWorld := { initialHeight := 0,
                        heightSteps := [{ resp := { error := none,
                                                    value0 := some Commitment.finalized },
                                          nextHeight := 1 }],
                        startTime := 0, wallSteps := [] },
      postFetch := { blockhash := "C", lastValidBlockHeight := 200 } } rfl rfl

/-- C9: when the caller passes explicit `opts`, the `last_valid_block_height`
captured while fetching the blockhash in step 1 is discarded: the dispatched
options are exactly the caller's `opts` (first conjunct — stated with the
cache disabled, so the fetch did record a height ceiling), and confirmation
runs with whatever `last_valid_block_height` the caller's opts carry — with
that field unset, confirmation not skipped and the dispatch succeeding, the
call's result is decided by the wall-clock loop, not the height-bounded one
(second conjunct). -/
theorem send_explicit_opts_discard_height (default : Commitment) (o : TxOpts)
    (w : SendWorld) (_hcache : w.cacheEnabled = false)
    (hlv : o.lastValidBlockHeight = none) (hskip : o.skipConfirmation = false)
    (hdisp : w.dispatchResp.error = none) :
    (send_transaction default (some o) none w).dispatchedOpts = o ∧
    (send_transaction default (some o) none w).result
      = (match wallLoop (w.confirmWorld.startTime + 30)
              (COMMITMENT_RANKS o.preflightCommitment) w.confirmWorld.startTime
              w.confirmWorld.wallSteps none with
         | .confirmed _ => Except.ok w.dispatchResp
         | .rpcError e => Except.error (SendError.rpcException e)
         | .rpcErrorAtExhaustion e => Except.error (SendError.rpcException e)
         | .expired => Except.error SendError.expired
         | .unconfirmed => Except.error SendError.unconfirmed
         | .unboundLocal => Except.error SendError.unboundLocal
         | .outOfTrace => Except.error SendError.outOfTrace) := by
  constructor
  · show (finishSend w _ _ _).dispatchedOpts = o
    rw [finishSend_dispatchedOpts]
    rfl
  · show (finishSend w _ _ _).result = _
    rw [finishSend_result]
    show send_raw_transaction default (some o) w.dispatchResp w.confirmWorld = _
    rw [send_raw_transaction]
    simp only [Option.getD, hskip, Bool.false_eq_true, if_false,
      _post_send_with_confirm, _post_send, hdisp, hlv]
    have hmode : confirm_transaction default (some o.preflightCommitment) none
        w.confirmWorld
      = wallLoop (w.confirmWorld.startTime + 30)
          (COMMITMENT_RANKS o.preflightCommitment) w.confirmWorld.startTime
          w.confirmWorld.wallSteps none := rfl
    rw [hmode]
    cases wallLoop (w.confirmWorld.startTime + 30)
        (COMMITMENT_RANKS o.preflightCommitment) w.confirmWorld.startTime
        w.confirmWorld.wallSteps none <;>
      simp [confirmToExcept]

/-- C9 witness: explicit opts with no `last_valid_block_height`, cache
disabled (the fetch records the ceiling 100, which is discarded): the
dispatched opts are the caller's, and confirmation confirms via the
wall-clock loop. -/
theorem send_explicit_opts_discard_height_witness :
    (send_transaction Commitment.finalized
        (some { preflightCommitment := Commitment.confirmed }) none
        { cacheEnabled := false, cacheGet := none,
          missFetch := { blockhash := "B", lastValidBlockHeight := 100 },
          dispatchResp := { error := none, result := "sig1" },
          confirmWorld := { initialHeight := 0, heightSteps := [], startTime := 0,
                            wallSteps := [{ resp := { error := none,
                                                      value0 := some Commitment.confirmed },
                                            nextTime := 1 }] },
          postFetch := { blockhash := "C", lastValidBlockHeight := 200 } }).dispatchedOpts
      = { preflightCommitment := Commitment.confirmed } ∧
    (send_transaction Commitment.finalized
        (some { preflightCommitment := Commitment.confirmed }) none
        { cacheEnabled := false, cacheGet := none,
          missFetch := { blockhash := "B", lastValidBlockHeight := 100 },
          dispatchResp := { error := none, result := "sig1" },
          confirmWorld := { initialHeight := 0, heightSteps := [], startTime := 0,
                            wallSteps := [{ resp := { error := none,
                                                      value0 := some Commitment.confirmed },
                                            nextTime := 1 }] },
          postFetch := { blockhash := "C", lastValidBlockHeight := 200 } }).result
      = Except.ok { error := none, result := "sig1" } :=
  send_explicit_opts_discard_height Commitment.finalized
    { preflightCommitment := Commitment.confirmed }
    { cacheEnabled := false, cacheGet := none,
      missFetch := { blockhash := "B", lastValidBlockHeight := 100 },
      dispatchResp := { error := none, result := "sig1" },
      confirmWorld := { initialHeight := 0, heightSteps := [], startTime := 0,
                        wallSteps := [{ resp := { error := none,
                                                  value0 := some Commitment.confirmed },
                                        nextTime := 1 }] },
      postFetch := { blockhash := "C", lastValidBlockHeight := 200 } }
    rfl rfl rfl rfl
